import Mathlib

/-!
Verification of the easy-sql repository: a shallow embedding of the
validation, cleaning, chart-inference and configuration logic, with
theorems settling the specification claims.

Sources embedded:
* `src/llm/nl_to_sql.py` : `_clean_sql_query`, `validate_query`
* `src/visualization/chart_generator.py` : `auto_detect_chart_type`,
  the chart builders' column-default resolution, and `create_chart`
* `config/settings.py` : `Settings.get_database_url`
* `src/database/db_manager.py` : `execute_query`

Python strings are modelled as `List Char`; `str.upper`/`str.strip` are
modelled on ASCII (the SQL keywords involved are ASCII).  A pandas
DataFrame is modelled by its column list (name and dtype class) together
with its rows of cell values; the chart logic only inspects dtypes and
counts, which is exactly what the model records, while keeping the cell
values so that value-independence is a real statement.
-/

namespace EasySql

/-- The dtype classification pandas `select_dtypes` distinguishes in
`chart_generator.py`: numeric dtypes (`include=['number']`), datetime
dtypes (`include=['datetime64']`), and everything else. -/
inductive Dtype
  | numeric
  | datetime
  | other
deriving DecidableEq, Repr

/-- A pandas DataFrame, for the purposes of `chart_generator.py`:
`cols` is the column index (name and dtype class), `rows` the rows of
cell values (values are opaque strings; the chart logic never reads
them).  `df.empty` in pandas is true when either axis has length 0. -/
structure DataFrame where
  cols : List (String × Dtype)
  rows : List (List String)
deriving DecidableEq, Repr

/-- Model of `df.columns` as a list of names. -/
def df_columns (df : DataFrame) : List String := df.cols.map Prod.fst

/-- Model of `df.select_dtypes(include=['number']).columns.tolist()`. -/
def numeric_columns (df : DataFrame) : List String :=
  (df.cols.filter (fun c => c.2 == Dtype.numeric)).map Prod.fst

/-- Translation of `ChartGenerator.auto_detect_chart_type` from
`src/visualization/chart_generator.py`, translated clause by clause:
empty frame (an axis of length 0) gives "table"; a single numeric column
gives "metric"; two columns split one numeric / one non-numeric give
"bar" for at most 20 rows and "line" beyond; at least two numeric
columns give "line"; a datetime column alongside a numeric column gives
"line"; otherwise "table". -/
def auto_detect_chart_type (df : DataFrame) : String :=
  if df.rows = [] ∨ df.cols = [] then "table"
  else
    let num_rows := df.rows.length
    let numeric_cols := df.cols.filter (fun c => c.2 == Dtype.numeric)
    let non_numeric_cols := df.cols.filter (fun c => !(c.2 == Dtype.numeric))
    if df.cols.length = 1 ∧ numeric_cols ≠ [] then "metric"
    else if df.cols.length = 2 ∧ numeric_cols.length = 1 ∧ non_numeric_cols.length = 1 then
      if num_rows ≤ 20 then "bar" else "line"
    else if 2 ≤ numeric_cols.length then "line"
    else
      let date_cols := df.cols.filter (fun c => c.2 == Dtype.datetime)
      if date_cols ≠ [] ∧ numeric_cols ≠ [] then "line"
      else "table"

/-- The documented decision table of `auto_detect_chart_type`, stated
over the shape of the frame alone: the per-column dtype classes and the
row count.  This is the spec-side description (amended with the
empty-frame and datetime clauses the code contains). -/
def chartTypeTable (dts : List Dtype) (nrows : Nat) : String :=
  if nrows = 0 ∨ dts = [] then "table"
  else if dts.length = 1 ∧ dts.contains Dtype.numeric then "metric"
  else if dts.length = 2 ∧ dts.countP (fun d => d == Dtype.numeric) = 1 then
    if nrows ≤ 20 then "bar" else "line"
  else if 2 ≤ dts.countP (fun d => d == Dtype.numeric) then "line"
  else if dts.contains Dtype.datetime ∧ dts.contains Dtype.numeric then "line"
  else "table"

/-- The decision table exactly as claim C2 words it (no empty-frame
clause, no datetime clause): single numeric column, one categorical plus
one numeric, two or more numeric, else table. -/
def specChartTypeC2 (df : DataFrame) : String :=
  let dts := df.cols.map Prod.snd
  let nNum := dts.countP (fun d => d == Dtype.numeric)
  if dts.length = 1 ∧ nNum = 1 then "metric"
  else if dts.length = 2 ∧ nNum = 1 then
    if df.rows.length ≤ 20 then "bar" else "line"
  else if 2 ≤ nNum then "line"
  else "table"

/-! ### Chart builders: default column resolution

Each `create_*` builder in `chart_generator.py` resolves its column
arguments before calling the plotting library.  The figure construction
itself is external plotting; what the repository's code decides is which
columns are used, so the builders are embedded as the column-resolution
step.  `Option.none` models a Python exception (`IndexError` on
`df.columns[i]` / `numeric_cols[i]` for a missing index). -/

/-- Defaults of `create_bar_chart`: `x_column = df.columns[0]` and
`y_column = df.columns[1] if len(df.columns) > 1 else df.columns[0]`
when unspecified. -/
def create_bar_chart_xy (df : DataFrame) (x_column y_column : Option String) :
    Option (String × String) :=
  let xo := match x_column with
    | some x => some x
    | none => (df_columns df).get? 0
  let yo := match y_column with
    | some y => some y
    | none =>
      if 1 < (df_columns df).length then (df_columns df).get? 1
      else (df_columns df).get? 0
  match xo, yo with
  | some x, some y => some (x, y)
  | _, _ => none

/-- Defaults of `create_line_chart`: `x_column = df.columns[0]` and
`y_columns = numeric_cols if numeric_cols else [df.columns[1]]`
when unspecified. -/
def create_line_chart_cols (df : DataFrame) (x_column : Option String)
    (y_columns : Option (List String)) : Option (String × List String) :=
  let xo := match x_column with
    | some x => some x
    | none => (df_columns df).get? 0
  let yso := match y_columns with
    | some ys => some ys
    | none =>
      if numeric_columns df ≠ [] then some (numeric_columns df)
      else match (df_columns df).get? 1 with
        | some y => some [y]
        | none => none
  match xo, yso with
  | some x, some ys => some (x, ys)
  | _, _ => none

/-- Defaults of `create_pie_chart`: `names_column = df.columns[0]` and
`values_column = numeric_cols[0] if numeric_cols else df.columns[1]`
when unspecified. -/
def create_pie_chart_cols (df : DataFrame) (names_column values_column : Option String) :
    Option (String × String) :=
  let no := match names_column with
    | some n => some n
    | none => (df_columns df).get? 0
  let vo := match values_column with
    | some v => some v
    | none =>
      if numeric_columns df ≠ [] then (numeric_columns df).get? 0
      else (df_columns df).get? 1
  match no, vo with
  | some n, some v => some (n, v)
  | _, _ => none

/-- Defaults of `create_scatter_plot`: `x_column = numeric_cols[0] if numeric_cols
else df.columns[0]` and `y_column = numeric_cols[1] if
len(numeric_cols) > 1 else numeric_cols[0]` when unspecified (the `y`
default indexes `numeric_cols` unconditionally). -/
def create_scatter_plot_xy (df : DataFrame) (x_column y_column : Option String) :
    Option (String × String) :=
  let numeric := numeric_columns df
  let xo := match x_column with
    | some x => some x
    | none => if numeric ≠ [] then numeric.get? 0 else (df_columns df).get? 0
  let yo := match y_column with
    | some y => some y
    | none => if 1 < numeric.length then numeric.get? 1 else numeric.get? 0
  match xo, yo with
  | some x, some y => some (x, y)
  | _, _ => none

/-- Defaults of `create_histogram`: `column = numeric_cols[0] if numeric_cols else
df.columns[0]` when unspecified. -/
def create_histogram_col (df : DataFrame) (column : Option String) : Option String :=
  match column with
  | some c => some c
  | none =>
    if numeric_columns df ≠ [] then (numeric_columns df).get? 0
    else (df_columns df).get? 0

/-- The figure a builder would hand to the plotting library: which
builder ran and with which resolved columns. -/
inductive FigSpec
  | bar (x y : String)
  | line (x : String) (ys : List String)
  | pie (names values : String)
  | scatter (x y : String)
  | histogram (col : String)
deriving DecidableEq, Repr

/-- Outcome of `ChartGenerator.create_chart`: a figure, an exception
raised inside a builder, or the `ValueError` of the final `else`
branch. -/
inductive ChartResult
  | fig (f : FigSpec)
  | builderError
  | valueError (msg : String)
deriving DecidableEq, Repr

/-- Translation of `ChartGenerator.create_chart`, dispatching on `chart_type` exactly
as the source's `if/elif` chain does, with `config` left empty (all
builder columns defaulted), and raising
`ValueError(f"Unsupported chart type: {chart_type}")` otherwise. -/
def create_chart (df : DataFrame) (chart_type : String) : ChartResult :=
  if chart_type = "bar" then
    match create_bar_chart_xy df none none with
    | some (x, y) => .fig (.bar x y)
    | none => .builderError
  else if chart_type = "line" then
    match create_line_chart_cols df none none with
    | some (x, ys) => .fig (.line x ys)
    | none => .builderError
  else if chart_type = "pie" then
    match create_pie_chart_cols df none none with
    | some (n, v) => .fig (.pie n v)
    | none => .builderError
  else if chart_type = "scatter" then
    match create_scatter_plot_xy df none none with
    | some (x, y) => .fig (.scatter x y)
    | none => .builderError
  else if chart_type = "histogram" then
    match create_histogram_col df none with
    | some c => .fig (.histogram c)
    | none => .builderError
  else .valueError ("Unsupported chart type: " ++ chart_type)

/-! ### Settings (`config/settings.py`) -/

/-- The fields of `Settings` that `get_database_url` reads.  Values read
with a default in `settings.py` are plain strings; values read without a
default can be absent (`os.getenv` returning `None`). -/
structure Settings where
  DATABASE_TYPE : String
  DATABASE_PATH : String
  POSTGRES_HOST : String
  POSTGRES_PORT : String
  POSTGRES_DB : Option String
  POSTGRES_USER : Option String
  POSTGRES_PASSWORD : Option String
  MYSQL_HOST : String
  MYSQL_PORT : String
  MYSQL_DB : Option String
  MYSQL_USER : Option String
  MYSQL_PASSWORD : Option String
deriving DecidableEq, Repr

/-- How a Python f-string renders a possibly-`None` value. -/
def optStr : Option String → String
  | none => "None"
  | some s => s

/-- Translation of `Settings.get_database_url`: the three supported backends build a
URL; any other `DATABASE_TYPE` raises `ValueError`, modelled as
`Except.error` carrying the message. -/
def get_database_url (cls : Settings) : Except String String :=
  if cls.DATABASE_TYPE = "sqlite" then
    .ok ("sqlite:///" ++ cls.DATABASE_PATH)
  else if cls.DATABASE_TYPE = "postgresql" then
    .ok ("postgresql://" ++ optStr cls.POSTGRES_USER ++ ":" ++
      optStr cls.POSTGRES_PASSWORD ++ "@" ++ cls.POSTGRES_HOST ++ ":" ++
      cls.POSTGRES_PORT ++ "/" ++ optStr cls.POSTGRES_DB)
  else if cls.DATABASE_TYPE = "mysql" then
    .ok ("mysql+pymysql://" ++ optStr cls.MYSQL_USER ++ ":" ++
      optStr cls.MYSQL_PASSWORD ++ "@" ++ cls.MYSQL_HOST ++ ":" ++
      cls.MYSQL_PORT ++ "/" ++ optStr cls.MYSQL_DB)
  else .error ("Unsupported database type: " ++ cls.DATABASE_TYPE)

/-! ### NL-to-SQL converter (`src/llm/nl_to_sql.py`)

Python strings are modelled as `List Char`.  `str.upper` is modelled on
ASCII via `Char.toUpper` and `str.strip` strips the ASCII whitespace
characters; the queries and keywords involved are ASCII. -/

/-- Model of `str.upper()` (ASCII). -/
def pyUpper (s : List Char) : List Char := s.map Char.toUpper

/-- The characters `str.strip()` removes (ASCII model). -/
def isPySpace (c : Char) : Bool := c.isWhitespace

/-- Model of `str.strip()`: drop whitespace from the front, then from the back. -/
def pyStrip (s : List Char) : List Char :=
  ((s.dropWhile isPySpace).reverse.dropWhile isPySpace).reverse

/-- Python's substring test `pat in s`: `pat` occurs as a contiguous
run somewhere in `s`. -/
def hasSub (pat : List Char) : List Char → Bool
  | [] => pat.isEmpty
  | c :: rest => pat.isPrefixOf (c :: rest) || hasSub pat rest

/-- Fuelled worker for `replaceDel`; the fuel only serves structural
termination and is irrelevant as long as it dominates the length of the
string (`replaceDelF_fuel` below). -/
def replaceDelF (pat : List Char) : Nat → List Char → List Char
  | _, [] => []
  | 0, s => s
  | fuel + 1, c :: rest =>
    if pat ≠ [] ∧ pat.isPrefixOf (c :: rest) then
      replaceDelF pat fuel ((c :: rest).drop pat.length)
    else c :: replaceDelF pat fuel rest

/-- Python's `s.replace(pat, "")` for a non-empty `pat`: scan `s` left
to right, deleting each non-overlapping occurrence of `pat` and
resuming the scan after it (as CPython does, occurrences are located in
the original string, never in already-rewritten text).  The `pat ≠ []`
guard only serves termination; both patterns used below are non-empty. -/
def replaceDel (pat s : List Char) : List Char := replaceDelF pat s.length s

/-- The backtick character (written by code point), used to take the
fence pattern apart character by character in proofs. -/
def bq : Char := '\u0060'

/-- The markdown fence `NLToSQLConverter._clean_sql_query` strips. -/
def fence : List Char := "```".toList

/-- The `sql`-tagged markdown fence stripped first. -/
def fenceSql : List Char := "```sql".toList

/-- Translation of `NLToSQLConverter._clean_sql_query`: drop ```` ```sql ```` markers,
then plain ```` ``` ```` markers, strip surrounding whitespace, and drop
one trailing semicolon. -/
def clean_sql_query (query : List Char) : List Char :=
  let q1 := replaceDel fenceSql query
  let q2 := replaceDel fence q1
  let q3 := pyStrip q2
  if q3.getLast? = some ';' then q3.dropLast else q3

/-- The `dangerous_keywords` list of `validate_query`. -/
def dangerous_keywords : List (List Char) :=
  ["DROP", "DELETE", "INSERT", "UPDATE", "ALTER", "CREATE", "TRUNCATE"].map
    String.toList

/-- Translation of `NLToSQLConverter.validate_query`: uppercase and strip the query;
reject unless it starts with `SELECT`; reject if any dangerous keyword
occurs as a substring; accept otherwise. -/
def validate_query (query : List Char) : Bool :=
  let query_upper := pyStrip (pyUpper query)
  if !(("SELECT".toList).isPrefixOf query_upper) then false
  else if dangerous_keywords.any (fun k => hasSub k query_upper) then false
  else true

/-! ### Database manager (`src/database/db_manager.py`) -/

/-- What happens inside the `try` block of
`DatabaseManager.execute_query`: the engine either produces a result
frame, raises a `SQLAlchemyError`, or raises some other exception.
This is the external engine's behaviour, passed in as an oracle. -/
inductive ExecOutcome
  | ok (df : DataFrame)
  | sqlalchemyError (msg : String)
  | otherError (msg : String)

/-- Translation of `DatabaseManager.execute_query`: every outcome of the `try` body is
caught and turned into a `(success, payload)` pair — `(True, df)` on
success, `(False, str(e))` on `SQLAlchemyError`, and
`(False, "Unexpected error: " + str(e))` on any other exception. -/
def execute_query (run : String → ExecOutcome) (query : String) :
    Bool × (DataFrame ⊕ String) :=
  match run query with
  | .ok df => (true, Sum.inl df)
  | .sqlalchemyError e => (false, Sum.inr e)
  | .otherError e => (false, Sum.inr ("Unexpected error: " ++ e))

/-- Concrete frame with a datetime, a numeric and an object column:
the shape that separates the code's datetime clause from claim C2's
"every other shape yields table". -/
def dfDatetime : DataFrame :=
  ⟨[("d", Dtype.datetime), ("v", Dtype.numeric), ("s", Dtype.other)],
    [["x", "1", "y"]]⟩

/-! ## Theorems -/

theorem filterSnd_length_eq_countP (l : List (String × Dtype)) (d : Dtype) :
    (l.filter (fun c => c.2 == d)).length = (l.map Prod.snd).countP (fun x => x == d) := by
  induction l with
  | nil => rfl
  | cons c rest ih =>
    by_cases h : c.2 == d <;>
      simp [List.filter_cons, List.countP_cons, h, ih]

theorem filter_not_length (l : List (String × Dtype)) (p : String × Dtype → Bool) :
    (l.filter (fun c => !(p c))).length + (l.filter p).length = l.length := by
  induction l with
  | nil => rfl
  | cons c rest ih =>
    by_cases h : p c <;> simp [List.filter_cons, h] <;> omega

theorem contains_iff_countP_pos (dts : List Dtype) (d : Dtype) :
    dts.contains d = true ↔ 0 < dts.countP (fun x => x == d) := by
  induction dts with
  | nil => simp
  | cons x rest ih =>
    by_cases h : x = d
    · simp [List.countP_cons, h]
    · simp [List.countP_cons, h, ih]
      exact fun hdx => absurd hdx.symm h

/-- `auto_detect_chart_type` computes exactly the decision table
`chartTypeTable` applied to the frame's shape (its dtype classes and
row count). -/
theorem auto_detect_shape (df : DataFrame) :
    auto_detect_chart_type df = chartTypeTable (df.cols.map Prod.snd) df.rows.length := by
  obtain ⟨cols, rows⟩ := df
  have hN := filterSnd_length_eq_countP cols Dtype.numeric
  have hD := filterSnd_length_eq_countP cols Dtype.datetime
  have hT := filter_not_length cols (fun c => c.2 == Dtype.numeric)
  have hlen : (cols.map Prod.snd).length = cols.length := List.length_map _ _
  simp only [auto_detect_chart_type, chartTypeTable]
  by_cases h1 : rows = [] ∨ cols = []
  · have h1' : rows.length = 0 ∨ (cols.map Prod.snd) = [] := by
      rcases h1 with h | h <;> simp [h]
    simp only [if_pos h1, if_pos h1']
  · have h1' : ¬(rows.length = 0 ∨ (cols.map Prod.snd) = []) := by
      simpa only [List.length_eq_zero, List.map_eq_nil_iff] using h1
    simp only [if_neg h1, if_neg h1']
    by_cases h2 : cols.length = 1 ∧ cols.filter (fun c => c.2 == Dtype.numeric) ≠ []
    · have h2' : (cols.map Prod.snd).length = 1 ∧
          (cols.map Prod.snd).contains Dtype.numeric = true := by
        refine ⟨by rw [hlen]; exact h2.1, ?_⟩
        rw [contains_iff_countP_pos, ← hN]
        exact List.length_pos.mpr h2.2
      simp only [if_pos h2, if_pos h2']
    · have h2' : ¬((cols.map Prod.snd).length = 1 ∧
          (cols.map Prod.snd).contains Dtype.numeric = true) := by
        intro hc
        apply h2
        refine ⟨by rw [← hlen]; exact hc.1, ?_⟩
        apply List.length_pos.mp
        rw [hN, ← contains_iff_countP_pos]
        exact hc.2
      simp only [if_neg h2, if_neg h2']
      by_cases h3 : cols.length = 2 ∧
          (cols.filter (fun c => c.2 == Dtype.numeric)).length = 1 ∧
          (cols.filter (fun c => !(c.2 == Dtype.numeric))).length = 1
      · have h3' : (cols.map Prod.snd).length = 2 ∧
            (cols.map Prod.snd).countP (fun d => d == Dtype.numeric) = 1 :=
          ⟨by rw [hlen]; exact h3.1, by rw [← hN]; exact h3.2.1⟩
        simp only [if_pos h3, if_pos h3']
      · have h3' : ¬((cols.map Prod.snd).length = 2 ∧
            (cols.map Prod.snd).countP (fun d => d == Dtype.numeric) = 1) := by
          intro hc
          apply h3
          have hc1 : cols.length = 2 := by rw [← hlen]; exact hc.1
          have hc2 : (cols.filter (fun c => c.2 == Dtype.numeric)).length = 1 := by
            rw [hN]; exact hc.2
          exact ⟨hc1, hc2, by omega⟩
        simp only [if_neg h3, if_neg h3']
        by_cases h4 : 2 ≤ (cols.filter (fun c => c.2 == Dtype.numeric)).length
        · have h4' : 2 ≤ (cols.map Prod.snd).countP (fun d => d == Dtype.numeric) := by
            rw [← hN]; exact h4
          simp only [if_pos h4, if_pos h4']
        · have h4' : ¬(2 ≤ (cols.map Prod.snd).countP (fun d => d == Dtype.numeric)) := by
            rw [← hN]; exact h4
          simp only [if_neg h4, if_neg h4']
          by_cases h5 : cols.filter (fun c => c.2 == Dtype.datetime) ≠ [] ∧
              cols.filter (fun c => c.2 == Dtype.numeric) ≠ []
          · have h5' : (cols.map Prod.snd).contains Dtype.datetime = true ∧
                (cols.map Prod.snd).contains Dtype.numeric = true := by
              constructor
              · rw [contains_iff_countP_pos, ← hD]
                exact List.length_pos.mpr h5.1
              · rw [contains_iff_countP_pos, ← hN]
                exact List.length_pos.mpr h5.2
            simp only [if_pos h5, if_pos h5']
          · have h5' : ¬((cols.map Prod.snd).contains Dtype.datetime = true ∧
                (cols.map Prod.snd).contains Dtype.numeric = true) := by
              intro hc
              apply h5
              constructor
              · apply List.ne_nil_of_length_pos
                rw [hD, ← contains_iff_countP_pos]
                exact hc.1
              · apply List.ne_nil_of_length_pos
                rw [hN, ← contains_iff_countP_pos]
                exact hc.2
            simp only [if_neg h5, if_neg h5']

/-- C2 (counterexample): on a non-empty frame with one datetime, one
numeric and one object column, the code returns "line" through its
datetime clause, while the decision table of claim C2 — which covers
this shape only by its "every other shape yields table" default —
requires "table". -/
theorem auto_detect_claim_counterexample :
    auto_detect_chart_type dfDatetime = "line" ∧
      specChartTypeC2 dfDatetime = "table" := by
  decide

/-- C2 (amended): `auto_detect_chart_type` follows the decision table
extended with the two clauses present in the code: an empty frame
yields "table" before any other rule, and a frame that reaches the
default case with a datetime column alongside a numeric column yields
"line" instead of "table".  All other rows of the table are as the
claim states. -/
theorem auto_detect_follows_decision_table (df : DataFrame) :
    auto_detect_chart_type df = chartTypeTable (df.cols.map Prod.snd) df.rows.length :=
  auto_detect_shape df

/-- C7: the chart type depends only on the frame's emptiness, row count
and per-column dtype classification — two frames agreeing on those
(whatever their column names and cell values) get the same chart type. -/
theorem auto_detect_deterministic (df1 df2 : DataFrame)
    (_hempty : (df1.rows = [] ∨ df1.cols = []) ↔ (df2.rows = [] ∨ df2.cols = []))
    (hrows : df1.rows.length = df2.rows.length)
    (hdts : df1.cols.map Prod.snd = df2.cols.map Prod.snd) :
    auto_detect_chart_type df1 = auto_detect_chart_type df2 := by
  rw [auto_detect_shape, auto_detect_shape, hrows, hdts]

/-- Witness for C7 at concrete frames differing in column names and
cell values but agreeing in shape. -/
theorem auto_detect_deterministic_witness :
    auto_detect_chart_type ⟨[("a", Dtype.numeric)], [["1"], ["2"]]⟩ =
      auto_detect_chart_type ⟨[("b", Dtype.numeric)], [["x"], ["y"]]⟩ :=
  auto_detect_deterministic _ _ (by decide) (by decide) (by decide)

/-- C9: `auto_detect_chart_type` only ever returns "table", "metric",
"bar" or "line" (never "pie", "scatter" or "histogram"), and returns
"table" on every empty frame whatever its columns. -/
theorem auto_detect_range (df : DataFrame) :
    (auto_detect_chart_type df = "table" ∨ auto_detect_chart_type df = "metric" ∨
      auto_detect_chart_type df = "bar" ∨ auto_detect_chart_type df = "line") ∧
    ((df.rows = [] ∨ df.cols = []) → auto_detect_chart_type df = "table") := by
  constructor
  · rw [auto_detect_shape]
    unfold chartTypeTable
    split_ifs <;> simp
  · intro h
    unfold auto_detect_chart_type
    rw [if_pos h]

/-- Witness for C9 at a frame with a numeric column and no rows. -/
theorem auto_detect_range_witness :
    auto_detect_chart_type ⟨[("n", Dtype.numeric)], []⟩ = "table" :=
  (auto_detect_range ⟨[("n", Dtype.numeric)], []⟩).2 (Or.inl rfl)

/-- C3: `execute_query` never raises — whatever the engine does with
the query (succeed, raise a `SQLAlchemyError`, or raise anything else),
the function returns a value: `(True, frame)` on success and
`(False, message)` on any exception. -/
theorem execute_query_total (run : String → ExecOutcome) (q : String) :
    (∃ df, run q = ExecOutcome.ok df ∧ execute_query run q = (true, Sum.inl df)) ∨
    (∃ msg, execute_query run q = (false, Sum.inr msg)) := by
  cases h : run q with
  | ok df => exact Or.inl ⟨df, rfl, by simp [execute_query, h]⟩
  | sqlalchemyError e => exact Or.inr ⟨e, by simp [execute_query, h]⟩
  | otherError e =>
    exact Or.inr ⟨"Unexpected error: " ++ e, by simp [execute_query, h]⟩

/-- C6: `get_database_url` builds the sqlite URL for `DATABASE_TYPE =
"sqlite"`, the postgresql URL for `"postgresql"`, the mysql+pymysql URL
for `"mysql"`, and raises `ValueError` for every other value. -/
theorem get_database_url_cases (s : Settings) :
    (s.DATABASE_TYPE = "sqlite" →
      get_database_url s = .ok ("sqlite:///" ++ s.DATABASE_PATH)) ∧
    (s.DATABASE_TYPE = "postgresql" →
      get_database_url s = .ok ("postgresql://" ++ optStr s.POSTGRES_USER ++ ":" ++
        optStr s.POSTGRES_PASSWORD ++ "@" ++ s.POSTGRES_HOST ++ ":" ++
        s.POSTGRES_PORT ++ "/" ++ optStr s.POSTGRES_DB)) ∧
    (s.DATABASE_TYPE = "mysql" →
      get_database_url s = .ok ("mysql+pymysql://" ++ optStr s.MYSQL_USER ++ ":" ++
        optStr s.MYSQL_PASSWORD ++ "@" ++ s.MYSQL_HOST ++ ":" ++
        s.MYSQL_PORT ++ "/" ++ optStr s.MYSQL_DB)) ∧
    (s.DATABASE_TYPE ≠ "sqlite" → s.DATABASE_TYPE ≠ "postgresql" →
      s.DATABASE_TYPE ≠ "mysql" →
      get_database_url s = .error ("Unsupported database type: " ++ s.DATABASE_TYPE)) := by
  refine ⟨fun h => ?_, fun h => ?_, fun h => ?_, fun h1 h2 h3 => ?_⟩
  · simp [get_database_url, h]
  · simp [get_database_url, h]
  · simp [get_database_url, h]
  · simp [get_database_url, h1, h2, h3]

/-- Witness for C6: one concrete configuration per branch. -/
theorem get_database_url_cases_witness :
    get_database_url ⟨"sqlite", "data/sample.db", "localhost", "5432", none, none,
        none, "localhost", "3306", none, none, none⟩ = .ok "sqlite:///data/sample.db" ∧
    get_database_url ⟨"postgresql", "p", "localhost", "5432", some "db", some "u",
        some "pw", "localhost", "3306", none, none, none⟩ =
      .ok "postgresql://u:pw@localhost:5432/db" ∧
    get_database_url ⟨"mysql", "p", "localhost", "5432", none, none, none,
        "localhost", "3306", some "db", some "u", some "pw"⟩ =
      .ok "mysql+pymysql://u:pw@localhost:3306/db" ∧
    get_database_url ⟨"oracle", "p", "localhost", "5432", none, none, none,
        "localhost", "3306", none, none, none⟩ =
      .error "Unsupported database type: oracle" :=
  ⟨(get_database_url_cases _).1 rfl,
    (get_database_url_cases _).2.1 rfl,
    (get_database_url_cases _).2.2.1 rfl,
    (get_database_url_cases _).2.2.2 (by decide) (by decide) (by decide)⟩

/-- C10: `create_chart` raises `ValueError` (with the unsupported-type
message) for every `chart_type` outside the five builder names — in
particular for the "table" and "metric" values that
`auto_detect_chart_type` can return. -/
theorem create_chart_unsupported (df : DataFrame) (ct : String)
    (h : ct ∉ ["bar", "line", "pie", "scatter", "histogram"]) :
    create_chart df ct = .valueError ("Unsupported chart type: " ++ ct) := by
  simp only [List.mem_cons, List.not_mem_nil, or_false, not_or] at h
  obtain ⟨h1, h2, h3, h4, h5⟩ := h
  simp [create_chart, h1, h2, h3, h4, h5]

/-- Witness for C10 at the two chart types the auto-detector can
produce that `create_chart` cannot consume. -/
theorem create_chart_unsupported_witness :
    ("table" ∉ ["bar", "line", "pie", "scatter", "histogram"] ∧
      create_chart ⟨[], []⟩ "table" = .valueError "Unsupported chart type: table") ∧
    ("metric" ∉ ["bar", "line", "pie", "scatter", "histogram"] ∧
      create_chart ⟨[], []⟩ "metric" = .valueError "Unsupported chart type: metric") :=
  ⟨⟨by decide, create_chart_unsupported ⟨[], []⟩ "table" (by decide)⟩,
    ⟨by decide, create_chart_unsupported ⟨[], []⟩ "metric" (by decide)⟩⟩

theorem all_not_eq_not_any (l : List (List Char)) (f : List Char → Bool) :
    l.all (fun k => !(f k)) = !(l.any f) := by
  induction l with
  | nil => rfl
  | cons x rest ih => simp [List.all_cons, List.any_cons, ih, Bool.not_or]

/-- C1 (amended): `validate_query` accepts exactly the queries that,
after uppercasing and stripping surrounding whitespace, start with
`SELECT` and contain none of the banned keywords `DROP`, `DELETE`,
`INSERT`, `UPDATE`, `ALTER`, `CREATE`, `TRUNCATE` as substrings; it
returns false in every other case. -/
theorem validate_query_characterization (q : List Char) :
    validate_query q =
      ((("SELECT".toList).isPrefixOf (pyStrip (pyUpper q))) &&
        dangerous_keywords.all (fun k => !(hasSub k (pyStrip (pyUpper q))))) := by
  simp only [validate_query]
  cases hp : ("SELECT".toList).isPrefixOf (pyStrip (pyUpper q)) with
  | false => simp [hp]
  | true =>
    cases ha : dangerous_keywords.any (fun k => hasSub k (pyStrip (pyUpper q))) with
    | true => simp [hp, ha, all_not_eq_not_any]
    | false => simp [hp, ha, all_not_eq_not_any]

/-- C1 (counterexample): the query `"  SELECT 1"` does not start with
`SELECT` — case-insensitively, it starts with a space — yet
`validate_query` accepts it, because the code strips whitespace before
the `startswith` check. -/
theorem validate_query_claim_counterexample :
    validate_query ("  SELECT 1".toList) = true ∧
      ("SELECT".toList).isPrefixOf (pyUpper ("  SELECT 1".toList)) = false := by
  decide

/-- C5: the query `SELECT updated_at FROM users` is a `SELECT` query
whose only banned word is inside the identifier `updated_at`, and
`validate_query` rejects it: the keyword check produces false
positives. -/
theorem validate_query_false_positive :
    ("SELECT".toList).isPrefixOf (pyUpper ("SELECT updated_at FROM users".toList)) = true ∧
      validate_query ("SELECT updated_at FROM users".toList) = false := by
  decide

/-- Concrete frame with a non-numeric first column followed by two
numeric columns, separating the scatter builder's numeric-first
defaulting from claim C4's first/second-column defaulting. -/
def dfWide : DataFrame :=
  ⟨[("name", Dtype.other), ("a", Dtype.numeric), ("b", Dtype.numeric)],
    [["u", "1", "2"]]⟩

/-- C4 (counterexample): on a frame whose columns are
`name, a, b` with `a`, `b` numeric, `create_scatter_plot` defaults to
`x = "a", y = "b"` — not to the first and second columns
`"name", "a"` as the claim states. -/
theorem chart_builder_defaults_counterexample :
    2 ≤ dfWide.cols.length ∧
      df_columns dfWide = ["name", "a", "b"] ∧
      create_scatter_plot_xy dfWide none none = some ("a", "b") ∧
      some (("a" : String), ("b" : String)) ≠ some (("name" : String), ("a" : String)) := by
  decide

/-- C4 (amended): for every frame with at least two columns, the bar
builder defaults to the first/second columns; the line builder defaults
`x` to the first column and `y` to the numeric columns — the second
column only when there are none; the scatter builder defaults to the
first and second *numeric* columns (doubling the single numeric column
when only one exists, and failing on `numeric_cols[0]` when none
exist). -/
theorem chart_builder_defaults (df : DataFrame) (h : 2 ≤ df.cols.length) :
    create_bar_chart_xy df none none =
      some ((df_columns df).getD 0 "", (df_columns df).getD 1 "") ∧
    create_line_chart_cols df none none =
      some ((df_columns df).getD 0 "",
        if numeric_columns df = [] then [(df_columns df).getD 1 ""]
        else numeric_columns df) ∧
    create_scatter_plot_xy df none none =
      (if numeric_columns df = [] then none
       else some ((numeric_columns df).getD 0 "",
         if 1 < (numeric_columns df).length then (numeric_columns df).getD 1 ""
         else (numeric_columns df).getD 0 "")) := by
  obtain ⟨cols, rows⟩ := df
  rcases cols with _ | ⟨c0, cols⟩
  · exact absurd h (by simp)
  rcases cols with _ | ⟨c1, rest⟩
  · exact absurd h (by simp)
  have hcols : df_columns ⟨c0 :: c1 :: rest, rows⟩ = c0.1 :: c1.1 :: rest.map Prod.fst := rfl
  refine ⟨?_, ?_, ?_⟩
  · simp [create_bar_chart_xy, hcols]
  · by_cases hn : numeric_columns ⟨c0 :: c1 :: rest, rows⟩ = []
    · simp [create_line_chart_cols, hcols, hn]
    · simp [create_line_chart_cols, hcols, hn]
  · by_cases hn : numeric_columns ⟨c0 :: c1 :: rest, rows⟩ = []
    · simp [create_scatter_plot_xy, hcols, hn]
    · obtain ⟨n0, ntl, hN⟩ :
          ∃ n0 ntl, numeric_columns ⟨c0 :: c1 :: rest, rows⟩ = n0 :: ntl := by
        cases hx : numeric_columns ⟨c0 :: c1 :: rest, rows⟩ with
        | nil => exact absurd hx hn
        | cons a b => exact ⟨a, b, rfl⟩
      by_cases h1 : 1 < (numeric_columns ⟨c0 :: c1 :: rest, rows⟩).length
      · rcases ntl with _ | ⟨n1, ntl2⟩
        · rw [hN] at h1; simp at h1
        · simp [create_scatter_plot_xy, hN, hn, h1]
      · rcases ntl with _ | ⟨n1, ntl2⟩
        · simp [create_scatter_plot_xy, hN, hn, h1]
        · exfalso
          apply h1
          rw [hN]
          simp [List.length_cons]

/-- Witness for C4 (amended) at a two-column frame with one non-numeric
and one numeric column. -/
theorem chart_builder_defaults_witness :
    2 ≤ (⟨[("g", Dtype.other), ("v", Dtype.numeric)], [["a", "1"]]⟩ : DataFrame).cols.length ∧
      (create_bar_chart_xy ⟨[("g", Dtype.other), ("v", Dtype.numeric)], [["a", "1"]]⟩
          none none =
        some ((df_columns ⟨[("g", Dtype.other), ("v", Dtype.numeric)], [["a", "1"]]⟩).getD 0 "",
          (df_columns ⟨[("g", Dtype.other), ("v", Dtype.numeric)], [["a", "1"]]⟩).getD 1 "") ∧
      create_line_chart_cols ⟨[("g", Dtype.other), ("v", Dtype.numeric)], [["a", "1"]]⟩
          none none =
        some ((df_columns ⟨[("g", Dtype.other), ("v", Dtype.numeric)], [["a", "1"]]⟩).getD 0 "",
          if numeric_columns ⟨[("g", Dtype.other), ("v", Dtype.numeric)], [["a", "1"]]⟩ = []
          then [(df_columns ⟨[("g", Dtype.other), ("v", Dtype.numeric)], [["a", "1"]]⟩).getD 1 ""]
          else numeric_columns ⟨[("g", Dtype.other), ("v", Dtype.numeric)], [["a", "1"]]⟩) ∧
      create_scatter_plot_xy ⟨[("g", Dtype.other), ("v", Dtype.numeric)], [["a", "1"]]⟩
          none none =
        (if numeric_columns ⟨[("g", Dtype.other), ("v", Dtype.numeric)], [["a", "1"]]⟩ = []
         then none
         else some
           ((numeric_columns ⟨[("g", Dtype.other), ("v", Dtype.numeric)], [["a", "1"]]⟩).getD 0 "",
            if 1 < (numeric_columns ⟨[("g", Dtype.other), ("v", Dtype.numeric)], [["a", "1"]]⟩).length
            then (numeric_columns ⟨[("g", Dtype.other), ("v", Dtype.numeric)], [["a", "1"]]⟩).getD 1 ""
            else (numeric_columns ⟨[("g", Dtype.other), ("v", Dtype.numeric)], [["a", "1"]]⟩).getD 0 ""))) :=
  ⟨by decide, chart_builder_defaults _ (by decide)⟩

/-! ### Markdown-fence machinery for C8 -/

theorem replaceDelF_fuel (pat : List Char) :
    ∀ f1 f2 s, s.length ≤ f1 → s.length ≤ f2 →
      replaceDelF pat f1 s = replaceDelF pat f2 s := by
  intro f1
  induction f1 with
  | zero =>
    intro f2 s h1 h2
    have hs : s = [] := by
      cases s with
      | nil => rfl
      | cons c rest => simp at h1
    subst hs
    cases f2 <;> rfl
  | succ n ih =>
    intro f2 s h1 h2
    cases s with
    | nil => cases f2 <;> rfl
    | cons c rest =>
      cases f2 with
      | zero => simp at h2
      | succ m =>
        by_cases hc : pat ≠ [] ∧ pat.isPrefixOf (c :: rest) = true
        · have hplen : 0 < pat.length := List.length_pos.mpr hc.1
          simp only [replaceDelF, if_pos hc]
          apply ih
          · simp only [List.length_drop, List.length_cons]
            simp only [List.length_cons] at h1
            omega
          · simp only [List.length_drop, List.length_cons]
            simp only [List.length_cons] at h2
            omega
        · simp only [replaceDelF, if_neg hc]
          have h1' : rest.length ≤ n := by simp at h1; omega
          have h2' : rest.length ≤ m := by simp at h2; omega
          exact congrArg _ (ih m rest h1' h2')

theorem replaceDel_nil (pat : List Char) : replaceDel pat [] = [] := rfl

theorem replaceDel_cons_pos (pat : List Char) (c : Char) (rest : List Char)
    (hne : pat ≠ []) (hp : pat.isPrefixOf (c :: rest) = true) :
    replaceDel pat (c :: rest) = replaceDel pat ((c :: rest).drop pat.length) := by
  have hplen : 0 < pat.length := List.length_pos.mpr hne
  show replaceDelF pat (rest.length + 1) (c :: rest) = _
  simp only [replaceDelF, if_pos (And.intro hne hp)]
  apply replaceDelF_fuel
  · simp only [List.length_drop, List.length_cons]
    omega
  · exact le_rfl

theorem replaceDel_cons_neg (pat : List Char) (c : Char) (rest : List Char)
    (hc : ¬(pat ≠ [] ∧ pat.isPrefixOf (c :: rest) = true)) :
    replaceDel pat (c :: rest) = c :: replaceDel pat rest := by
  show replaceDelF pat (rest.length + 1) (c :: rest) = _
  simp only [replaceDelF, if_neg hc]
  rfl

theorem replaceDel_cons_of_not_prefixOf (pat : List Char) (c : Char) (rest : List Char)
    (h : pat.isPrefixOf (c :: rest) = false) :
    replaceDel pat (c :: rest) = c :: replaceDel pat rest :=
  replaceDel_cons_neg pat c rest (by simp [h])

theorem cons_isPrefixOf (a b : Char) (as bs : List Char) :
    (a :: as).isPrefixOf (b :: bs) = (a == b && as.isPrefixOf bs) := rfl

theorem isPrefixOf_shorten (p q : List Char) :
    ∀ s, (p ++ q).isPrefixOf s = true → p.isPrefixOf s = true := by
  induction p with
  | nil => intro s _; simp
  | cons a p' ih =>
    intro s h
    cases s with
    | nil => simp at h
    | cons b s' =>
      simp only [List.cons_append, cons_isPrefixOf, Bool.and_eq_true] at h ⊢
      exact ⟨h.1, ih s' h.2⟩

theorem fence_eq : fence = [bq, bq, bq] := by decide

theorem tick1_reflect (s : List Char) (h3 : fence.isPrefixOf s = false)
    (h1 : [bq].isPrefixOf (replaceDel fence s) = true) :
    [bq].isPrefixOf s = true := by
  cases s with
  | nil => simp [replaceDel_nil] at h1
  | cons c rest =>
    rw [replaceDel_cons_of_not_prefixOf _ _ _ h3] at h1
    simp only [cons_isPrefixOf, Bool.and_eq_true] at h1 ⊢
    exact ⟨h1.1, by simp⟩

theorem tick2_reflect (s : List Char) (h3 : fence.isPrefixOf s = false)
    (h2 : [bq, bq].isPrefixOf (replaceDel fence s) = true) :
    [bq, bq].isPrefixOf s = true := by
  cases s with
  | nil => simp [replaceDel_nil] at h2
  | cons c rest =>
    rw [replaceDel_cons_of_not_prefixOf _ _ _ h3] at h2
    simp only [cons_isPrefixOf, Bool.and_eq_true] at h2 ⊢
    refine ⟨h2.1, ?_⟩
    have h3rest : fence.isPrefixOf rest = false := by
      cases hx : fence.isPrefixOf rest with
      | false => rfl
      | true =>
        exfalso
        have h22 : [bq, bq].isPrefixOf rest = true := by
          apply isPrefixOf_shorten [bq, bq] [bq] rest
          have e3 : ([bq, bq] ++ [bq] : List Char) = fence := by
            rw [fence_eq]
            rfl
          rw [e3]
          exact hx
        have : fence.isPrefixOf (c :: rest) = true := by
          rw [fence_eq]
          simp only [cons_isPrefixOf, Bool.and_eq_true]
          exact ⟨h2.1, h22⟩
        rw [h3] at this
        exact Bool.false_ne_true this
    exact tick1_reflect rest h3rest h2.2

theorem replaceDel_fence_no_fence_aux :
    ∀ n s, s.length ≤ n → hasSub fence (replaceDel fence s) = false := by
  intro n
  induction n with
  | zero =>
    intro s hs
    have h0 : s = [] := by
      cases s with
      | nil => rfl
      | cons c rest => simp at hs
    subst h0
    rfl
  | succ n ih =>
    intro s hs
    cases s with
    | nil => rfl
    | cons c rest =>
      by_cases hp : fence.isPrefixOf (c :: rest) = true
      · rw [replaceDel_cons_pos fence c rest (by decide) hp]
        apply ih
        have hfl : fence.length = 3 := rfl
        simp only [List.length_drop, List.length_cons, hfl]
        simp only [List.length_cons] at hs
        omega
      · have hp' : fence.isPrefixOf (c :: rest) = false := by
          cases hx : fence.isPrefixOf (c :: rest) with
          | false => rfl
          | true => exact absurd hx hp
        rw [replaceDel_cons_of_not_prefixOf _ _ _ hp']
        have hrest : hasSub fence (replaceDel fence rest) = false := by
          apply ih
          simp only [List.length_cons] at hs
          omega
        have hnp : fence.isPrefixOf (c :: replaceDel fence rest) = false := by
          cases hx : fence.isPrefixOf (c :: replaceDel fence rest) with
          | false => rfl
          | true =>
            exfalso
            rw [fence_eq] at hx
            simp only [cons_isPrefixOf, Bool.and_eq_true] at hx
            have h3rest : fence.isPrefixOf rest = false := by
              cases hy : fence.isPrefixOf rest with
              | false => rfl
              | true =>
                exfalso
                have h22 : [bq, bq].isPrefixOf rest = true := by
                  apply isPrefixOf_shorten [bq, bq] [bq] rest
                  have e3 : ([bq, bq] ++ [bq] : List Char) = fence := by
                    rw [fence_eq]
                    rfl
                  rw [e3]
                  exact hy
                have hcon : fence.isPrefixOf (c :: rest) = true := by
                  rw [fence_eq]
                  simp only [cons_isPrefixOf, Bool.and_eq_true]
                  exact ⟨hx.1, h22⟩
                rw [hp'] at hcon
                exact Bool.false_ne_true hcon
            have h2rest : [bq, bq].isPrefixOf rest = true :=
              tick2_reflect rest h3rest hx.2
            have hcon : fence.isPrefixOf (c :: rest) = true := by
              rw [fence_eq]
              simp only [cons_isPrefixOf, Bool.and_eq_true]
              exact ⟨hx.1, h2rest⟩
            rw [hp'] at hcon
            exact Bool.false_ne_true hcon
        simp only [hasSub, hnp, hrest, Bool.or_self]

/-- After `replace("```", "")` the result contains no occurrence of
the fence: removal happens on non-overlapping occurrences scanned left
to right, and the survivors of a backtick run are at most two long. -/
theorem replaceDel_fence_no_fence (s : List Char) :
    hasSub fence (replaceDel fence s) = false :=
  replaceDel_fence_no_fence_aux s.length s le_rfl

theorem isPrefixOf_append_right (p : List Char) (b : List Char) :
    ∀ t, p.isPrefixOf t = true → p.isPrefixOf (t ++ b) = true := by
  induction p with
  | nil => intro t _; simp
  | cons a p' ih =>
    intro t h
    cases t with
    | nil => simp [List.isPrefixOf] at h
    | cons c t' =>
      simp only [List.cons_append, cons_isPrefixOf, Bool.and_eq_true] at h ⊢
      exact ⟨h.1, ih t' h.2⟩

theorem hasSub_nil_pat (s : List Char) : hasSub [] s = true := by
  cases s with
  | nil => rfl
  | cons c rest => simp [hasSub, List.isPrefixOf]

theorem hasSub_append_right (pat b : List Char) :
    ∀ t, hasSub pat t = true → hasSub pat (t ++ b) = true := by
  intro t
  induction t with
  | nil =>
    intro h
    have hp : pat = [] := by
      simpa [hasSub, List.isEmpty_iff] using h
    subst hp
    exact hasSub_nil_pat b
  | cons c t' ih =>
    intro h
    simp only [hasSub, Bool.or_eq_true] at h
    rcases h with h | h
    · have := isPrefixOf_append_right pat b (c :: t') h
      simp only [List.cons_append] at this ⊢
      simp [hasSub, this]
    · simp only [List.cons_append, hasSub, Bool.or_eq_true]
      exact Or.inr (ih h)

theorem hasSub_append_left (pat : List Char) :
    ∀ a t, hasSub pat t = true → hasSub pat (a ++ t) = true := by
  intro a
  induction a with
  | nil => intro t h; simpa using h
  | cons x a' ih =>
    intro t h
    simp only [List.cons_append, hasSub, Bool.or_eq_true]
    exact Or.inr (ih t h)

theorem hasSub_infix_false (pat a t b : List Char)
    (h : hasSub pat (a ++ t ++ b) = false) : hasSub pat t = false := by
  cases hx : hasSub pat t with
  | false => rfl
  | true =>
    exfalso
    have : hasSub pat (a ++ t ++ b) = true := by
      rw [List.append_assoc]
      exact hasSub_append_left pat a (t ++ b) (hasSub_append_right pat b t hx)
    rw [h] at this
    exact Bool.false_ne_true this

theorem pyStrip_middle (s : List Char) : ∃ a b, s = a ++ pyStrip s ++ b := by
  refine ⟨s.takeWhile isPySpace,
    (((s.dropWhile isPySpace).reverse.takeWhile isPySpace)).reverse, ?_⟩
  unfold pyStrip
  conv_lhs => rw [← List.takeWhile_append_dropWhile isPySpace s]
  rw [List.append_assoc]
  congr 1
  conv_lhs => rw [← List.reverse_reverse (s.dropWhile isPySpace)]
  conv_lhs =>
    rw [← List.takeWhile_append_dropWhile isPySpace (s.dropWhile isPySpace).reverse]
  rw [List.reverse_append]

theorem hasSub_pyStrip_false (pat s : List Char) (h : hasSub pat s = false) :
    hasSub pat (pyStrip s) = false := by
  obtain ⟨a, b, hab⟩ := pyStrip_middle s
  exact hasSub_infix_false pat a _ b (by rw [← hab]; exact h)

theorem hasSub_dropLast_false (pat t : List Char) (h : hasSub pat t = false) :
    hasSub pat t.dropLast = false := by
  apply hasSub_infix_false pat [] t.dropLast (t.drop (t.length - 1))
  have ht : t.dropLast ++ t.drop (t.length - 1) = t := by
    rw [List.dropLast_eq_take]
    exact List.take_append_drop _ _
  simpa [ht] using h

/-- C8: the cleaned LLM response contains no markdown fence: for every
input string, `_clean_sql_query`'s output has no occurrence of
three consecutive backticks. -/
theorem clean_sql_no_fence (q : List Char) :
    hasSub fence (clean_sql_query q) = false := by
  unfold clean_sql_query
  have h2 : hasSub fence (replaceDel fence (replaceDel fenceSql q)) = false :=
    replaceDel_fence_no_fence (replaceDel fenceSql q)
  have h3 : hasSub fence (pyStrip (replaceDel fence (replaceDel fenceSql q))) = false :=
    hasSub_pyStrip_false _ _ h2
  by_cases hsemi :
      (pyStrip (replaceDel fence (replaceDel fenceSql q))).getLast? = some ';'
  · rw [if_pos hsemi]
    exact hasSub_dropLast_false _ _ h3
  · rw [if_neg hsemi]
    exact h3

end EasySql
